import Mathlib

/-!
Shallow embedding of `src/fDNS/fDNS.cpp` (FileMaker DNS plugin, v0.66).

Texts crossing the plugin boundary are modelled as byte lists (`List Nat`,
one entry per byte of the native encoding).  External collaborators
(c-ares, the OS resolver, `select`, libresolv's `dn_expand`,
`inet_ntop(AF_INET6)`) are modelled as explicit environment data passed to
each operation: booleans for setup-call outcomes, functions for lookups,
and a finite trace of poll-loop iterations for the asynchronous driver.
Machine integers (`int` millisecond counters) are modelled as `Int`; all
arithmetic stays far from 2^31 so no wraparound modelling is needed.
-/

namespace FDNS

/-- ASCII bytes of a Lean string literal (all literals used are ASCII). -/
def bytes (s : String) : List Nat := s.data.map Char.toNat

/-- The sentinel result `"?"` (fDNS.cpp uses it for lookup failure/timeout). -/
def qmark : List Nat := bytes "?"

/-- `#define DEFAULT_TIMEOUT 3000` (fDNS.cpp line 43). -/
def DEFAULT_TIMEOUT : Int := 3000

/-- `getString` (fDNS.cpp lines 67–72): `fmx::Text` bytes are copied into a
zero-initialised 512-byte buffer with at most 511 bytes written, and the
result is read back as a C string (stops at the first NUL byte). -/
def getString (t : List Nat) : List Nat :=
  (t.take 511).takeWhile (fun b => b != 0)

/-- One step of glibc-style `inet_pton(AF_INET, …)` parsing, processing the
remaining characters with the current octet value, a saw-digit flag and the
completed octets accumulated so far. -/
def pton4Go : List Nat → Nat → Bool → List Nat → Option (List Nat)
  | [], cur, sawDigit, acc =>
    if sawDigit ∧ acc.length = 3 then some (acc ++ [cur]) else none
  | c :: rest, cur, sawDigit, acc =>
    if 48 ≤ c ∧ c ≤ 57 then
      if sawDigit ∧ cur = 0 then none
      else
        let v := cur * 10 + (c - 48)
        if 255 < v then none else pton4Go rest v true acc
    else if c = 46 then
      if sawDigit = false then none
      else if 3 ≤ acc.length then none
      else pton4Go rest 0 false (acc ++ [cur])
    else none

/-- `inet_pton(AF_INET, s, …)`: strict dotted-decimal IPv4 parsing, four
octets of 1–3 decimal digits each, value ≤ 255, no leading zeros; returns
the four address bytes on success. -/
def inet_pton4 (s : List Nat) : Option (List Nat) := pton4Go s 0 false []

/-- Decimal digit bytes of a natural number (models `std::to_string`), via
explicit fuel to keep the recursion structural. -/
def decNatAux : Nat → Nat → List Nat
  | 0, _ => []
  | f + 1, n => if n < 10 then [48 + n] else decNatAux f (n / 10) ++ [48 + n % 10]

/-- Decimal digit bytes of a natural number (models `std::to_string`). -/
def decNat (n : Nat) : List Nat := decNatAux (n + 1) n

/-- `inet_ntop(AF_INET, …)` over the first four rdata bytes: dotted-decimal
rendering, never empty. -/
def inet_ntop4 (rd : List Nat) : List Nat :=
  decNat (rd.getD 0 0) ++ [46] ++ decNat (rd.getD 1 0) ++ [46] ++
    decNat (rd.getD 2 0) ++ [46] ++ decNat (rd.getD 3 0)

/-- Big-endian 16-bit read `(rd[i] << 8) | rd[i+1]` as used for MX/SRV
fields (fDNS.cpp lines 583, 597–599). -/
def u16 (rd : List Nat) (i : Nat) : Nat :=
  ((rd.getD i 0) <<< 8) ||| rd.getD (i + 1) 0

/-! ### DNS wire constants (`arpa/nameser.h`) -/

/-- `ns_t_a`. -/
def ns_t_a : Nat := 1
/-- `ns_t_ns`. -/
def ns_t_ns : Nat := 2
/-- `ns_t_cname`. -/
def ns_t_cname : Nat := 5
/-- `ns_t_ptr`. -/
def ns_t_ptr : Nat := 12
/-- `ns_t_mx`. -/
def ns_t_mx : Nat := 15
/-- `ns_t_txt`. -/
def ns_t_txt : Nat := 16
/-- `ns_t_aaaa`. -/
def ns_t_aaaa : Nat := 28
/-- `ns_t_srv`. -/
def ns_t_srv : Nat := 33

/-- The eight record kinds queried by `fDNS_Resolve_Extended`
(the `queryTypes` array, fDNS.cpp lines 539–548). -/
inductive RecordKind where
  | A | AAAA | CNAME | MX | TXT | NS | SRV | PTR
deriving DecidableEq, Repr

/-- Wire type of each record kind, as paired in `queryTypes`. -/
def wireType : RecordKind → Nat
  | .A => ns_t_a
  | .AAAA => ns_t_aaaa
  | .CNAME => ns_t_cname
  | .MX => ns_t_mx
  | .TXT => ns_t_txt
  | .NS => ns_t_ns
  | .SRV => ns_t_srv
  | .PTR => ns_t_ptr

/-- One answer-section entry of a DNS response as seen through libresolv:
whether `ns_parserr` succeeds on it, its `ns_rr_type`, and its rdata
bytes. -/
structure RRWire where
  parseOk : Bool
  rrType : Nat
  rdata : List Nat
deriving DecidableEq, Repr

/-- A raw DNS response as seen through libresolv: whether `ns_initparse`
succeeds, and the answer-section entries (`ns_msg_count(handle, ns_s_an)`
many). -/
structure DnsMessage where
  parseOk : Bool
  answers : List RRWire
deriving DecidableEq, Repr

/-- External libresolv/libc helpers used by the record-parsing callback and
by the native AAAA path: `inet_ntop(AF_INET6, …)` on rdata bytes, and
`dn_expand` applied at a given byte offset into an entry's rdata (the
message context of compression pointers is folded into the oracle). -/
structure Lib where
  inetNtop6 : List Nat → List Nat
  dnExpand : List Nat → Nat → List Nat

/-- The record-value rendering chain of the `fDNS_Resolve_Extended`
callback (fDNS.cpp lines 570–607): `value` starts empty and is assigned
only by the branch whose kind string and wire type both match. -/
def renderValue (lib : Lib) (kind : RecordKind) (rr : RRWire) : List Nat :=
  if kind = RecordKind.A ∧ rr.rrType = ns_t_a then inet_ntop4 rr.rdata
  else if kind = RecordKind.AAAA ∧ rr.rrType = ns_t_aaaa then lib.inetNtop6 rr.rdata
  else if kind = RecordKind.CNAME ∧ rr.rrType = ns_t_cname then lib.dnExpand rr.rdata 0
  else if kind = RecordKind.MX ∧ rr.rrType = ns_t_mx then
    decNat (u16 rr.rdata 0) ++ [32] ++ lib.dnExpand rr.rdata 2
  else if kind = RecordKind.TXT ∧ rr.rrType = ns_t_txt then
    (rr.rdata.drop 1).take (rr.rdata.getD 0 0)
  else if kind = RecordKind.NS ∧ rr.rrType = ns_t_ns then lib.dnExpand rr.rdata 0
  else if kind = RecordKind.SRV ∧ rr.rrType = ns_t_srv then
    decNat (u16 rr.rdata 0) ++ [32] ++ decNat (u16 rr.rdata 2) ++ [32] ++
      decNat (u16 rr.rdata 4) ++ [32] ++ lib.dnExpand rr.rdata 6
  else if kind = RecordKind.PTR ∧ rr.rrType = ns_t_ptr then lib.dnExpand rr.rdata 0
  else []

/-- The per-entry loop of the `fDNS_Resolve_Extended` callback
(fDNS.cpp lines 565–611): entries whose `ns_parserr` fails are skipped,
and a `(kind, value)` pair is appended only when `value` is non-empty. -/
def parseEntries (lib : Lib) (kind : RecordKind) : List RRWire → List (RecordKind × List Nat)
  | [] => []
  | rr :: rest =>
    (if rr.parseOk then
      let v := renderValue lib kind rr
      if v ≠ [] then [(kind, v)] else []
    else []) ++ parseEntries lib kind rest

/-- The record-parsing callback body for one successfully delivered answer
buffer (fDNS.cpp lines 562–612): an unparseable message (`ns_initparse`
failure) yields zero records. -/
def parseRecords (lib : Lib) (kind : RecordKind) (msg : DnsMessage) : List (RecordKind × List Nat) :=
  if msg.parseOk then parseEntries lib kind msg.answers else []

/-! ### Poll-loop traces

The custom-server paths of `fDNS_Resolve` and `fDNS_Reverse` run the
identical `select`/`ares_process` loop (fDNS.cpp lines 296–328 and
423–455); `fDNS_Resolve_Extended` runs the eight-query variant
(lines 624–661).  One loop iteration's interaction with the outside world
is a trace element: the `ares_fds` socket count, the `ares_timeout`
preferred wait (milliseconds, never negative), the sign of the `select`
return value, and which c-ares callbacks `ares_process` fires. -/

/-- Outcome delivered to a single-answer c-ares callback
(fDNS.cpp lines 279–292 / 408–419): `success v` models
`ARES_SUCCESS` with a usable `hostent` whose rendered answer is `v`;
`failure` models every other status (callback stores `"?"`). -/
inductive CbOutcome where
  | success (value : List Nat)
  | failure
deriving DecidableEq, Repr

/-- One iteration of the single-query poll loop, as seen from outside. -/
structure PollStep where
  nfds : Nat
  preferredWaitMs : Nat
  selectOk : Bool
  fires : Option CbOutcome
deriving DecidableEq, Repr

/-- Wait-interval clipping (fDNS.cpp lines 312–314 / 439–441 / 648–650):
the session-preferred interval, clipped to `timeoutMs - totalWaitMs`. -/
def clipWait (timeoutMs totalWaitMs : Int) (preferred : Nat) : Int :=
  if (preferred : Int) > timeoutMs - totalWaitMs then timeoutMs - totalWaitMs
  else (preferred : Int)

/-- The single-query poll loop (fDNS.cpp lines 296–328, identically
423–455): `while (!callbackData.done && totalWaitMs < timeoutMs)`, break
on `ares_fds == 0` or `select` error, otherwise process readiness and add
the clipped wait to the total.  Returns the callback outcome (if the
callback fired) and the final `totalWaitMs`. -/
def runSingleLoop (timeoutMs : Int) :
    List PollStep → Option CbOutcome → Int → Option CbOutcome × Int
  | [], fired, total => (fired, total)
  | step :: rest, fired, total =>
    if fired.isSome = true ∨ timeoutMs ≤ total then (fired, total)
    else if step.nfds = 0 then (fired, total)
    else
      let waitMs := clipWait timeoutMs total step.preferredWaitMs
      if step.selectOk then
        runSingleLoop timeoutMs rest (fired <|> step.fires) (total + waitMs)
      else (fired, total)

/-- Post-loop result extraction for the single-query paths
(fDNS.cpp lines 279–292 and 330–331 / 408–419 and 457–458): a successful
callback stores its value, a failed callback stores `"?"`, and if the
callback never fired the timeout forcing stores `"?"`. -/
def singleResult : Option CbOutcome → List Nat
  | some (.success v) => v
  | some .failure => qmark
  | none => qmark

/-- Outcome delivered to one of the eight `fDNS_Resolve_Extended`
callbacks: `ok msg` models `ARES_SUCCESS` with answer buffer `msg`;
`err` models every other status (the callback only sets `done`). -/
inductive QueryOutcome where
  | ok (msg : DnsMessage)
  | err
deriving DecidableEq, Repr

/-- One iteration of the eight-query poll loop; `fires` lists the indices
(into the `queryTypes` array) of the callbacks `ares_process` invokes. -/
structure ExtStep where
  nfds : Nat
  preferredWaitMs : Nat
  selectOk : Bool
  fires : List Nat
deriving DecidableEq, Repr

/-- The `queryTypes` array order (fDNS.cpp lines 539–548). -/
def queryKinds : List RecordKind :=
  [.A, .AAAA, .CNAME, .MX, .TXT, .NS, .SRV, .PTR]

/-- Firing of one extended-path callback (fDNS.cpp lines 559–615): on
`ARES_SUCCESS` the parsed records are appended to the shared vector, on
any other status nothing is appended; either way `done` is set.  A
callback already marked done is never re-invoked by c-ares. -/
def fireOne (lib : Lib) (outcomes : List QueryOutcome)
    (st : List Bool × List (RecordKind × List Nat)) (i : Nat) :
    List Bool × List (RecordKind × List Nat) :=
  if st.1.getD i true then st
  else
    (st.1.set i true,
     match outcomes.getD i .err with
     | .err => st.2
     | .ok msg => st.2 ++ parseRecords lib (queryKinds.getD i .A) msg)

/-- The eight-query poll loop of `fDNS_Resolve_Extended`
(fDNS.cpp lines 624–661): loop until all eight callbacks are done or
`totalWaitMs >= timeoutMs`, break on `ares_fds == 0` or `select` error;
there is no post-loop forcing of pending queries to a sentinel. -/
def runExtLoop (lib : Lib) (timeoutMs : Int) (outcomes : List QueryOutcome) :
    List ExtStep → List Bool → List (RecordKind × List Nat) → Int →
    List Bool × List (RecordKind × List Nat) × Int
  | [], done, recs, total => (done, recs, total)
  | step :: rest, done, recs, total =>
    if done.all (fun b => b) = true ∨ timeoutMs ≤ total then (done, recs, total)
    else if step.nfds = 0 then (done, recs, total)
    else
      let waitMs := clipWait timeoutMs total step.preferredWaitMs
      if step.selectOk then
        let st := step.fires.foldl (fireOne lib outcomes) (done, recs)
        runExtLoop lib timeoutMs outcomes rest st.1 st.2 (total + waitMs)
      else (done, recs, total)

/-! ### Shared plugin state and its environment -/

/-- A live `ares_channel` binding: created by `ares_init` (system default)
or by `ares_init_options` + `ares_set_servers_ports_csv` (custom list). -/
inductive Binding where
  | system
  | custom (spec : List Nat)
deriving DecidableEq, Repr

/-- The shared plugin state (fDNS.cpp lines 60–64): `g_currentDnsServer`
(empty = system default), `g_dnsInitialized`, and `g_channel`
(`none` = `nullptr`). -/
structure DNSState where
  currentDnsServer : List Nat
  dnsInitialized : Bool
  channel : Option Binding
deriving DecidableEq, Repr

/-- `gethostbyname` result data used by the native `fDNS_Resolve_Extended`
path (fDNS.cpp lines 498–505, 518–520): address list, whether
`h_addrtype == AF_INET`, and `h_name` (`none` = null). -/
structure Hostent where
  addrtype4 : Bool
  addrs : List (List Nat)
  name : Option (List Nat)

/-- The external world one plugin call runs against: outcomes of c-ares
setup calls, the OS resolver's answers (already rendered to text, as the
code renders them immediately), the poll-loop traces and the per-query
c-ares outcomes, and the libresolv helpers. -/
structure World where
  libraryInitOk : Bool
  aresInitOk : Bool
  initOptionsOk : Bool
  setServersOk : List Nat → Bool
  systemResolve : List Nat → Option (List Nat)
  systemReverse : List Nat → Option (List Nat)
  sysHostent : List Nat → Option Hostent
  sysAAAA : List Nat → Option (List (List Nat))
  pollSteps : List PollStep
  extSteps : List ExtStep
  extOutcomes : List QueryOutcome
  lib : Lib

/-- The channel-rebuild block shared verbatim by `fDNS_Initialize`
(fDNS.cpp lines 116–134) and `fDNS_Set_Server` (lines 160–178): destroy
any existing channel, then bind a fresh one for `currentDnsServer`; on
any bind failure return 1 with the channel left null. -/
def rebuildChannel (env : World) (s : DNSState) : Int × DNSState :=
  let s1 : DNSState := { s with channel := none }
  if s1.currentDnsServer = [] then
    if env.aresInitOk then (0, { s1 with channel := some .system })
    else (1, s1)
  else
    if env.initOptionsOk = false then (1, s1)
    else if env.setServersOk s1.currentDnsServer then
      (0, { s1 with channel := some (.custom s1.currentDnsServer) })
    else (1, s1)

/-- `fDNS_Initialize` (fDNS.cpp lines 106–136). -/
def fDNS_Initialize (env : World) (s : DNSState) : Int × DNSState :=
  if s.dnsInitialized = false ∧ env.libraryInitOk = false then (1, s)
  else
    let s1 : DNSState :=
      if s.dnsInitialized = false then
        { s with currentDnsServer := [], dnsInitialized := true }
      else s
    rebuildChannel env s1

/-- `fDNS_Uninitialize` (fDNS.cpp lines 138–151). -/
def fDNS_Uninit (s : DNSState) : Int × DNSState :=
  let s1 : DNSState := { s with channel := none }
  if s1.dnsInitialized then
    (0, { s1 with dnsInitialized := false, currentDnsServer := [] })
  else (0, s1)

/-- `fDNS_Set_Server` (fDNS.cpp lines 153–180): requires initialization,
stores the new spec, then rebuilds the channel against it. -/
def fDNS_Set_Server (env : World) (dnsServer : List Nat) (s : DNSState) : Int × DNSState :=
  if s.dnsInitialized = false then (1, s)
  else rebuildChannel env { s with currentDnsServer := dnsServer }

/-- `fDNS_Get_Current_Server` (fDNS.cpp lines 182–186). -/
def fDNS_Get_Current_Server (s : DNSState) : List Nat := s.currentDnsServer

/-! ### The resolving operations -/

/-- The argument vector as consumed by the resolving operations: its size,
the bytes of `At(0).GetAsText()`, and `AtAsNumber(1).AsLong()`. -/
structure DataVect where
  size : Nat
  text0 : List Nat
  num1 : Int
deriving DecidableEq, Repr

/-- Timeout argument handling shared by the three resolving operations
(fDNS.cpp lines 236–240 / 355–359 / 481–485): default 3000 ms, a supplied
negative value is replaced by the default. -/
def normalizeTimeout (dv : DataVect) : Int :=
  if 1 < dv.size then (if dv.num1 < 0 then DEFAULT_TIMEOUT else dv.num1)
  else DEFAULT_TIMEOUT

/-- `resolve_with_system` (fDNS.cpp lines 75–84): one blocking
`getaddrinfo` call; error or no result yields `"?"`, otherwise the first
address rendered by `inet_ntop` (the environment returns it rendered). -/
def resolve_with_system (env : World) (hostname : List Nat) : List Nat :=
  match env.systemResolve hostname with
  | none => qmark
  | some ip => ip

/-- `reverse_with_system` (fDNS.cpp lines 87–98): `inet_pton` failure
yields `"?"`; otherwise one blocking `getnameinfo(NI_NAMEREQD)` call whose
failure yields `"?"`. -/
def reverse_with_system (env : World) (ipAddress : List Nat) : List Nat :=
  match inet_pton4 ipAddress with
  | none => qmark
  | some addr =>
    match env.systemReverse addr with
    | none => qmark
    | some host => host

/-- `fDNS_Resolve` (fDNS.cpp lines 225–342).  Returns the FileMaker error
code and the text result (`none` when the error path skips assigning a
result).  The function never writes the shared state.  In the custom
branch the inner `dnsServer.empty()` re-test (lines 257–272) is constantly
false, so only its `ares_init_options` arm is live. -/
def fDNS_Resolve (env : World) (s : DNSState) (dv : DataVect) : Int × Option (List Nat) :=
  if s.dnsInitialized = false then (1, none)
  else if dv.size < 1 then (956, none)
  else
    let hostname := getString dv.text0
    if hostname = [] then (956, none)
    else
      let timeoutMs := normalizeTimeout dv
      let dnsServer := s.currentDnsServer
      if dnsServer = [] then (0, some (resolve_with_system env hostname))
      else
        if env.initOptionsOk = false then (1, none)
        else if env.setServersOk dnsServer = false then (1, none)
        else
          let r := runSingleLoop timeoutMs env.pollSteps none 0
          (0, some (singleResult r.1))

/-- `fDNS_Reverse` (fDNS.cpp lines 346–469).  Same structure as
`fDNS_Resolve`; in the custom branch the `inet_pton` validation
(lines 397–401) destroys the channel and returns 956. -/
def fDNS_Reverse (env : World) (s : DNSState) (dv : DataVect) : Int × Option (List Nat) :=
  if s.dnsInitialized = false then (1, none)
  else if dv.size < 1 then (956, none)
  else
    let ipAddress := getString dv.text0
    if ipAddress = [] then (956, none)
    else
      let timeoutMs := normalizeTimeout dv
      let dnsServer := s.currentDnsServer
      if dnsServer = [] then (0, some (reverse_with_system env ipAddress))
      else
        if env.initOptionsOk = false then (1, none)
        else if env.setServersOk dnsServer = false then (1, none)
        else
          match inet_pton4 ipAddress with
          | none => (956, none)
          | some _ =>
            let r := runSingleLoop timeoutMs env.pollSteps none 0
            (0, some (singleResult r.1))

/-- The native (system-resolver) record collection of
`fDNS_Resolve_Extended` (fDNS.cpp lines 495–521): A records via
`gethostbyname`, AAAA records via `getaddrinfo(AF_INET6)`, and a
best-effort CNAME when `h_name` differs from the queried hostname. -/
def nativeExtendedRecords (env : World) (hostname : List Nat) : List (RecordKind × List Nat) :=
  (match env.sysHostent hostname with
   | some he =>
     if he.addrtype4 then he.addrs.map (fun a => (RecordKind.A, inet_ntop4 a)) else []
   | none => []) ++
  (match env.sysAAAA hostname with
   | some addrs => addrs.map (fun a => (RecordKind.AAAA, env.lib.inetNtop6 a))
   | none => []) ++
  (match env.sysHostent hostname with
   | some he =>
     match he.name with
     | some n => if n ≠ hostname then [(RecordKind.CNAME, n)] else []
     | none => []
   | none => [])

/-- The record-list computation of `fDNS_Resolve_Extended`
(fDNS.cpp lines 472–663), up to but not including the JSON rendering. -/
def resolveExtendedRecords (env : World) (s : DNSState) (dv : DataVect) :
    Int × Option (List (RecordKind × List Nat)) :=
  if s.dnsInitialized = false then (1, none)
  else if dv.size < 1 then (956, none)
  else
    let hostname := getString dv.text0
    if hostname = [] then (956, none)
    else
      let timeoutMs := normalizeTimeout dv
      let dnsServer := s.currentDnsServer
      if dnsServer = [] then (0, some (nativeExtendedRecords env hostname))
      else
        if env.initOptionsOk = false then (1, none)
        else if env.setServersOk dnsServer = false then (1, none)
        else
          let r := runExtLoop env.lib timeoutMs env.extOutcomes env.extSteps
            (List.replicate 8 false) [] 0
          (0, some r.2.1)

/-- The record-kind names used as JSON `type` strings (the `queryTypes`
string column and the native-path literals). -/
def kindName : RecordKind → List Nat
  | .A => bytes "A"
  | .AAAA => bytes "AAAA"
  | .CNAME => bytes "CNAME"
  | .MX => bytes "MX"
  | .TXT => bytes "TXT"
  | .NS => bytes "NS"
  | .SRV => bytes "SRV"
  | .PTR => bytes "PTR"

/-- One record object of `DNSRecordsToJson` (fDNS.cpp line 49). -/
def recordJson (r : RecordKind × List Nat) : List Nat :=
  bytes "\x7b\"type\":\"" ++ kindName r.1 ++ bytes "\",\"value\":\"" ++ r.2 ++ bytes "\"\x7d"

/-- The comma-joined record array of `DNSRecordsToJson`
(fDNS.cpp lines 48–51). -/
def recordsJsonGo : List (RecordKind × List Nat) → List Nat
  | [] => []
  | [r] => recordJson r
  | r :: rest => recordJson r ++ bytes "," ++ recordsJsonGo rest

/-- `DNSRecordsToJson` (fDNS.cpp lines 45–54). -/
def DNSRecordsToJson (hostname : List Nat) (records : List (RecordKind × List Nat)) : List Nat :=
  bytes "\x7b\"hostname\":\"" ++ hostname ++ bytes "\",\"records\":[" ++
    recordsJsonGo records ++ bytes "]\x7d"

/-- `fDNS_Resolve_Extended` (fDNS.cpp lines 472–672): the record list
rendered as JSON. -/
def fDNS_Resolve_Extended (env : World) (s : DNSState) (dv : DataVect) : Int × Option (List Nat) :=
  match resolveExtendedRecords env s dv with
  | (code, none) => (code, none)
  | (code, some recs) => (code, some (DNSRecordsToJson (getString dv.text0) recs))

/-- `fDNS_Plugin_Set_Server` (fDNS.cpp lines 732–740), the registered
wrapper around `fDNS_Set_Server`. -/
def fDNS_Plugin_Set_Server (env : World) (dv : DataVect) (s : DNSState) : Int × DNSState :=
  if s.dnsInitialized = false then (1, s)
  else if dv.size < 1 then (956, s)
  else fDNS_Set_Server env (getString dv.text0) s

/-! ### The public operations as a step machine on the shared state -/

/-- One public plugin operation (the registered external functions). -/
inductive Op where
  | init
  | uninit
  | setServer (dv : DataVect)
  | resolve (dv : DataVect)
  | reverse (dv : DataVect)
  | resolveExtended (dv : DataVect)
  | getCurrentServer
  | getSystemsServer

/-- Effect of one public operation on the shared state.  `fDNS_Resolve`,
`fDNS_Reverse`, `fDNS_Resolve_Extended`, `fDNS_Get_Current_Server` and
`fDNS_Get_Systems_Server` read but never write the globals, so they leave
the state unchanged (their result types above already enforce this). -/
def stepOp (env : World) : Op → DNSState → DNSState
  | .init, s => (fDNS_Initialize env s).2
  | .uninit, s => (fDNS_Uninit s).2
  | .setServer dv, s => (fDNS_Plugin_Set_Server env dv s).2
  | .resolve _, s => s
  | .reverse _, s => s
  | .resolveExtended _, s => s
  | .getCurrentServer, s => s
  | .getSystemsServer, s => s

/-- Run a sequence of public operations, each against its own world. -/
def runOps : List (World × Op) → DNSState → DNSState
  | [], s => s
  | (env, op) :: rest, s => runOps rest (stepOp env op s)

/-- The operations that can change the stored server spec or tear the
engine down: `SetServer` and `Uninitialize`. -/
def touchesServerConfig : Op → Bool
  | .uninit => true
  | .setServer _ => true
  | _ => false

/-- Bind failure of the channel-rebuild block for a given spec: for an
empty spec `ares_init` fails; for a non-empty spec `ares_init_options` or
`ares_set_servers_ports_csv` fails. -/
def bindFails (env : World) (spec : List Nat) : Prop :=
  (spec = [] ∧ env.aresInitOk = false) ∨
    (spec ≠ [] ∧ (env.initOptionsOk = false ∨ env.setServersOk spec = false))

/-! ### Lock coverage of the shared-state accesses

A static transcription of every read and write of the shared globals
(`g_currentDnsServer`, `g_dnsInitialized`, `g_channel`) in the public
operations of fDNS.cpp, each tagged with whether the access happens while
`g_dnsMutex` is held (`std::lock_guard` in scope).  Branch-dependent
accesses are listed once (the union over branches). -/

/-- The shared global fields of fDNS.cpp lines 61–64. -/
inductive GField where
  | server
  | initialized
  | channel
deriving DecidableEq, Repr

/-- Read or write. -/
inductive AccessMode where
  | read
  | write
deriving DecidableEq, Repr

/-- One access to a shared global, with its lock status. -/
structure Access where
  field : GField
  mode : AccessMode
  locked : Bool
deriving DecidableEq, Repr

/-- `fDNS_Initialize` (lines 106–136): `lock_guard` spans the body. -/
def initializeAccesses : List Access :=
  [⟨.initialized, .read, true⟩,    -- line 109
   ⟨.server, .write, true⟩,        -- line 112
   ⟨.initialized, .write, true⟩,   -- line 113
   ⟨.channel, .read, true⟩,        -- line 116
   ⟨.channel, .write, true⟩,       -- lines 117–118, 121, 127, 130–131
   ⟨.server, .read, true⟩]         -- lines 120, 129

/-- `fDNS_Uninitialize` (lines 138–151): `lock_guard` spans the body. -/
def uninitializeAccesses : List Access :=
  [⟨.channel, .read, true⟩,        -- line 141
   ⟨.channel, .write, true⟩,       -- lines 142–143
   ⟨.initialized, .read, true⟩,    -- line 145
   ⟨.initialized, .write, true⟩,   -- line 147
   ⟨.server, .write, true⟩]        -- line 148

/-- `fDNS_Set_Server` (lines 153–180): `lock_guard` spans the body. -/
def setServerAccesses : List Access :=
  [⟨.initialized, .read, true⟩,    -- line 156
   ⟨.server, .write, true⟩,        -- line 158
   ⟨.channel, .read, true⟩,        -- line 160
   ⟨.channel, .write, true⟩,       -- lines 161–162, 165, 171, 174–175
   ⟨.server, .read, true⟩]         -- lines 164, 173

/-- `fDNS_Get_Current_Server` (lines 182–186). -/
def getCurrentServerAccesses : List Access :=
  [⟨.server, .read, true⟩]         -- line 185

/-- `fDNS_Get_Systems_Server` (lines 188–222): uses only a local channel,
touches no shared global. -/
def getSystemsServerAccesses : List Access := []

/-- `fDNS_Resolve` (lines 225–342): the `g_dnsInitialized` test at
line 227 runs before any `lock_guard` is taken; the `g_currentDnsServer`
snapshot at lines 243–246 is under the lock. -/
def resolveAccesses : List Access :=
  [⟨.initialized, .read, false⟩,   -- line 227
   ⟨.server, .read, true⟩]         -- line 245

/-- `fDNS_Reverse` (lines 346–469): same shape as `fDNS_Resolve`
(unlocked line 348, locked lines 362–365). -/
def reverseAccesses : List Access :=
  [⟨.initialized, .read, false⟩,   -- line 348
   ⟨.server, .read, true⟩]         -- line 364

/-- `fDNS_Resolve_Extended` (lines 472–672): same shape
(unlocked line 474, locked lines 488–491). -/
def resolveExtendedAccesses : List Access :=
  [⟨.initialized, .read, false⟩,   -- line 474
   ⟨.server, .read, true⟩]         -- line 490

/-- `fDNS_Plugin_Set_Server` (lines 732–740): the `g_dnsInitialized` test
at line 734 runs before the lock, then `fDNS_Set_Server` is called. -/
def pluginSetServerAccesses : List Access :=
  ⟨.initialized, .read, false⟩ :: setServerAccesses   -- line 734

/-- All shared-global accesses of the public operations. -/
def allPublicAccesses : List Access :=
  initializeAccesses ++ uninitializeAccesses ++ setServerAccesses ++
    getCurrentServerAccesses ++ getSystemsServerAccesses ++
    resolveAccesses ++ reverseAccesses ++ resolveExtendedAccesses ++
    pluginSetServerAccesses

/-! ### Concrete fixtures for witnesses and counterexamples -/

/-- Libresolv helpers that render every name to `"x"` and every IPv6
address to `"v6"` (concrete, arbitrary non-empty outputs). -/
def libX : Lib :=
  { inetNtop6 := fun _ => bytes "v6", dnExpand := fun _ _ => bytes "x" }

/-- A concrete world where every setup call succeeds, the system resolver
finds nothing, and the poll trace is empty. -/
def worldN : World :=
  { libraryInitOk := true
    aresInitOk := true
    initOptionsOk := true
    setServersOk := fun _ => true
    systemResolve := fun _ => none
    systemReverse := fun _ => none
    sysHostent := fun _ => none
    sysAAAA := fun _ => none
    pollSteps := []
    extSteps := []
    extOutcomes := []
    lib := libX }

/-- `worldN` with `ares_set_servers_ports_csv` failing (malformed spec). -/
def worldBadBind : World := { worldN with setServersOk := fun _ => false }

/-- An extended-path world: query 0 (the A query) answers successfully
with one A record `1.2.3.4`, everything else errors or stays pending. -/
def worldExt : World :=
  { worldN with
    extSteps := [⟨1, 10, true, [0, 1]⟩]
    extOutcomes :=
      [QueryOutcome.ok ⟨true, [⟨true, ns_t_a, [1, 2, 3, 4]⟩]⟩, QueryOutcome.err] }

/-- Initialized state using the system default resolver. -/
def sNative : DNSState :=
  { currentDnsServer := [], dnsInitialized := true, channel := some .system }

/-- Initialized state with a custom server `9.9.9.9` bound. -/
def sCustom : DNSState :=
  { currentDnsServer := bytes "9.9.9.9", dnsInitialized := true
    channel := some (.custom (bytes "9.9.9.9")) }

/-- The never-initialized start state. -/
def sUninit : DNSState :=
  { currentDnsServer := [], dnsInitialized := false, channel := none }

/-- A one-argument vector carrying the text `not-an-ip`. -/
def dvNotIp : DataVect := { size := 1, text0 := bytes "not-an-ip", num1 := 0 }

/-- A one-argument vector carrying the empty text. -/
def dvEmpty : DataVect := { size := 1, text0 := [], num1 := 0 }

/-- A one-argument vector carrying the text `example.com`. -/
def dvHost : DataVect := { size := 1, text0 := bytes "example.com", num1 := 0 }

/-- A concrete poll trace: a long preferred wait (gets clipped) followed by
a failing callback delivery. -/
def stepsW : List PollStep := [⟨1, 5000, true, none⟩, ⟨1, 100, true, some .failure⟩]

/-- A parseable DNS message whose single answer entry is a zero-length TXT
record (rdata = one length byte `0`). -/
def txtMsg : DnsMessage := ⟨true, [⟨true, ns_t_txt, [0]⟩]⟩

/-- A concrete well-formed server spec. -/
def serverX : List Nat := bytes "1.1.1.1"

/-- A concrete operation sequence free of `SetServer`/`Uninitialize`. -/
def opsW : List (World × Op) :=
  [(worldN, Op.init), (worldN, Op.resolve dvHost), (worldN, Op.getCurrentServer)]

/-- A record originates from a successfully delivered answer of one of the
eight extended-path queries: for some query index `i`, the c-ares outcome
for query `i` was `ARES_SUCCESS` with message `msg` and the record is one
of the pairs the parsing callback emits for `msg`. -/
def FromOkQuery (lib : Lib) (outcomes : List QueryOutcome) (r : RecordKind × List Nat) : Prop :=
  ∃ i msg, i < 8 ∧ outcomes.getD i QueryOutcome.err = QueryOutcome.ok msg ∧
    r ∈ parseRecords lib (queryKinds.getD i RecordKind.A) msg

/-! ## Theorems -/

/-- Fields other than the channel are untouched by the rebuild block. -/
theorem rebuildChannel_fields (env : World) (s : DNSState) :
    (rebuildChannel env s).2.currentDnsServer = s.currentDnsServer ∧
    (rebuildChannel env s).2.dnsInitialized = s.dnsInitialized := by
  unfold rebuildChannel
  by_cases h : s.currentDnsServer = [] <;>
    by_cases ha : env.aresInitOk = true <;>
    by_cases hio : env.initOptionsOk = false <;>
    by_cases hso : env.setServersOk s.currentDnsServer = true <;>
    simp [h, ha, hio, hso]

/-- On any bind failure the rebuild block returns 1 and leaves the channel
null, touching nothing else. -/
theorem rebuildChannel_fail (env : World) (s : DNSState)
    (hfail : bindFails env s.currentDnsServer) :
    rebuildChannel env s = (1, { s with channel := none }) := by
  unfold rebuildChannel
  rcases hfail with ⟨he, ha⟩ | ⟨hne, h⟩
  · simp [he, ha]
  · rcases h with h | h <;> simp [hne, h]

/-- C2 (counterexample): with the engine not initialized, `fDNS_Resolve`
and `fDNS_Reverse` on an empty first argument return status 1
(`NotInitialized`), not 956 (`InvalidInput`): the initialization check at
lines 227/348 runs before the empty-argument check at lines 233/353, so
the empty-argument check does not dominate. -/
theorem c2_uninitialized_empty_counterexample :
    fDNS_Resolve worldN sUninit dvEmpty = (1, none) ∧
    fDNS_Reverse worldN sUninit dvEmpty = (1, none) ∧ (1 : Int) ≠ 956 := by
  refine ⟨rfl, rfl, by decide⟩

/-- C2 (amended): when the engine is initialized, `fDNS_Resolve` and
`fDNS_Reverse` on an empty first argument fail with 956; when it is not
initialized they fail with 1 regardless of the argument — the
initialization check dominates the empty-argument check. -/
theorem c2_empty_argument_amended (env : World) (s : DNSState) (dv : DataVect) :
    (s.dnsInitialized = true → 1 ≤ dv.size → getString dv.text0 = [] →
      fDNS_Resolve env s dv = (956, none) ∧ fDNS_Reverse env s dv = (956, none)) ∧
    (s.dnsInitialized = false →
      fDNS_Resolve env s dv = (1, none) ∧ fDNS_Reverse env s dv = (1, none)) := by
  constructor
  · intro hinit hsz hempty
    have h1 : ¬ s.dnsInitialized = false := by simp [hinit]
    have h2 : ¬ dv.size < 1 := by omega
    exact ⟨by simp [fDNS_Resolve, h1, h2, hempty], by simp [fDNS_Reverse, h1, h2, hempty]⟩
  · intro hinit
    exact ⟨by simp [fDNS_Resolve, hinit], by simp [fDNS_Reverse, hinit]⟩

/-- C2 witness: the amended theorem applied at concrete inputs. -/
theorem c2_empty_argument_witness :
    (fDNS_Resolve worldN sNative dvEmpty = (956, none) ∧
      fDNS_Reverse worldN sNative dvEmpty = (956, none)) ∧
    (fDNS_Resolve worldN sUninit dvHost = (1, none) ∧
      fDNS_Reverse worldN sUninit dvHost = (1, none)) :=
  ⟨(c2_empty_argument_amended worldN sNative dvEmpty).1 rfl (by decide) rfl,
   (c2_empty_argument_amended worldN sUninit dvHost).2 rfl⟩

/-- C1 (counterexample): in the native path (empty current server) an
input that does not parse as an IPv4 literal makes `fDNS_Reverse` return
status 0 with the sentinel `"?"` — it neither fails with 956 nor avoids
`"?"`, contradicting the claim for the native path. -/
theorem c1_reverse_native_invalid_counterexample :
    inet_pton4 (getString dvNotIp.text0) = none ∧
    fDNS_Reverse worldN sNative dvNotIp = (0, some qmark) ∧ (0 : Int) ≠ 956 := by
  refine ⟨by decide, by decide, by decide⟩

/-- C1 (amended): for a non-IPv4 input, `fDNS_Reverse` fails with 956 and
returns no text only in the custom-server path (after successful channel
setup); in the native path it instead succeeds with status 0 returning the
sentinel `"?"`. -/
theorem c1_reverse_invalid_input_amended (env : World) (s : DNSState) (dv : DataVect)
    (hinit : s.dnsInitialized = true) (hsz : 1 ≤ dv.size)
    (hne : getString dv.text0 ≠ [])
    (hbad : inet_pton4 (getString dv.text0) = none) :
    (s.currentDnsServer ≠ [] → env.initOptionsOk = true →
      env.setServersOk s.currentDnsServer = true → fDNS_Reverse env s dv = (956, none)) ∧
    (s.currentDnsServer = [] → fDNS_Reverse env s dv = (0, some qmark)) := by
  have h1 : ¬ s.dnsInitialized = false := by simp [hinit]
  have h2 : ¬ dv.size < 1 := by omega
  constructor
  · intro hsrv hio hss
    simp [fDNS_Reverse, h1, h2, hne, hsrv, hio, hss, hbad]
  · intro hsrv
    simp [fDNS_Reverse, h1, h2, hne, hsrv, reverse_with_system, hbad]

/-- C1 witness: both branches of the amended theorem at concrete inputs. -/
theorem c1_reverse_invalid_input_witness :
    fDNS_Reverse worldN sCustom dvNotIp = (956, none) ∧
    fDNS_Reverse worldN sNative dvNotIp = (0, some qmark) :=
  ⟨(c1_reverse_invalid_input_amended worldN sCustom dvNotIp rfl (by decide) (by decide)
      (by decide)).1 (by decide) rfl rfl,
   (c1_reverse_invalid_input_amended worldN sNative dvNotIp rfl (by decide) (by decide)
      (by decide)).2 rfl⟩

/-- The poll loop never lets `totalWaitMs` pass `timeoutMs`: each
iteration adds the wait interval only after clipping it to
`timeoutMs - totalWaitMs`. -/
theorem runSingleLoop_total_le (timeoutMs : Int) (steps : List PollStep)
    (fired : Option CbOutcome) (total : Int) (h : total ≤ timeoutMs) :
    (runSingleLoop timeoutMs steps fired total).2 ≤ timeoutMs := by
  induction steps generalizing fired total with
  | nil => simpa [runSingleLoop] using h
  | cons step rest ih =>
    unfold runSingleLoop
    split_ifs with h1 h2 h3
    · exact h
    · exact h
    · apply ih
      have hlt : total < timeoutMs := by
        rcases not_or.mp h1 with ⟨-, hna⟩
        omega
      unfold clipWait
      split_ifs with hc <;> omega
    · exact h

/-- C3: for every positive `timeoutMs` and every environment trace, the
single-query poll loop shared by the custom-server paths of `fDNS_Resolve`
(lines 296–328) and `fDNS_Reverse` (lines 423–455) exits with
`totalWaitMs ≤ timeoutMs`. -/
theorem c3_poll_budget (timeoutMs : Int) (steps : List PollStep) (h : 0 < timeoutMs) :
    (runSingleLoop timeoutMs steps none 0).2 ≤ timeoutMs :=
  runSingleLoop_total_le timeoutMs steps none 0 (by omega)

/-- C3 witness: the budget bound at a concrete timeout and trace. -/
theorem c3_poll_budget_witness :
    (0 : Int) < 3000 ∧ (runSingleLoop 3000 stepsW none 0).2 ≤ 3000 :=
  ⟨by decide, c3_poll_budget 3000 stepsW (by decide)⟩

/-- C4: when `fDNS_Set_Server` is called while initialized and the rebind
against the new spec fails, the call returns an error status (1), the
engine stays initialized, and the previous channel is destroyed and not
restored — the channel is left null. -/
theorem c4_setServer_failure_state (env : World) (s : DNSState) (spec : List Nat)
    (hinit : s.dnsInitialized = true) (hfail : bindFails env spec) :
    (fDNS_Set_Server env spec s).1 = 1 ∧
    (fDNS_Set_Server env spec s).2.dnsInitialized = true ∧
    (fDNS_Set_Server env spec s).2.channel = none := by
  have h1 : ¬ s.dnsInitialized = false := by simp [hinit]
  have hre := rebuildChannel_fail env { s with currentDnsServer := spec } hfail
  unfold fDNS_Set_Server
  rw [if_neg h1, hre]
  simp [hinit]

/-- C4 witness: a failing rebind (`ares_set_servers_ports_csv` rejects the
spec) at concrete inputs. -/
theorem c4_setServer_failure_witness :
    (fDNS_Set_Server worldBadBind (bytes "bad spec") sCustom).1 = 1 ∧
    (fDNS_Set_Server worldBadBind (bytes "bad spec") sCustom).2.dnsInitialized = true ∧
    (fDNS_Set_Server worldBadBind (bytes "bad spec") sCustom).2.channel = none :=
  c4_setServer_failure_state worldBadBind sCustom (bytes "bad spec") rfl
    (Or.inr ⟨by decide, Or.inr rfl⟩)

/-- C9: `fDNS_Set_Server` stores the new spec (line 158) before attempting
the rebind, so a failed call leaves the stored server equal to the new,
non-working spec: `fDNS_Get_Current_Server` then returns it, not the
previously working server. -/
theorem c9_setServer_failure_keeps_new_spec (env : World) (s : DNSState) (spec : List Nat)
    (hinit : s.dnsInitialized = true) (hfail : bindFails env spec) :
    (fDNS_Set_Server env spec s).1 = 1 ∧
    fDNS_Get_Current_Server (fDNS_Set_Server env spec s).2 = spec := by
  have h1 : ¬ s.dnsInitialized = false := by simp [hinit]
  have hre := rebuildChannel_fail env { s with currentDnsServer := spec } hfail
  unfold fDNS_Set_Server fDNS_Get_Current_Server
  rw [if_neg h1, hre]
  simp

/-- C9 witness: after a failed `fDNS_Set_Server` from a state whose
working server was `9.9.9.9`, the stored server is the malformed spec. -/
theorem c9_setServer_failure_witness :
    (fDNS_Set_Server worldBadBind (bytes "bad spec") sCustom).1 = 1 ∧
    fDNS_Get_Current_Server (fDNS_Set_Server worldBadBind (bytes "bad spec") sCustom).2 =
      bytes "bad spec" :=
  c9_setServer_failure_keeps_new_spec worldBadBind sCustom (bytes "bad spec") rfl
    (Or.inr ⟨by decide, Or.inr rfl⟩)

/-- Public operations other than `SetServer` and `Uninitialize` leave the
stored server spec unchanged and keep the engine initialized. -/
theorem stepOp_preserves (env : World) (op : Op) (s : DNSState)
    (hinit : s.dnsInitialized = true) (hop : touchesServerConfig op = false) :
    (stepOp env op s).currentDnsServer = s.currentDnsServer ∧
    (stepOp env op s).dnsInitialized = true := by
  cases op with
  | init =>
    have h1 : ¬ (s.dnsInitialized = false ∧ env.libraryInitOk = false) := by simp [hinit]
    have h2 : ¬ s.dnsInitialized = false := by simp [hinit]
    have hf := rebuildChannel_fields env s
    simp only [stepOp, fDNS_Initialize, if_neg h1, if_neg h2]
    exact ⟨hf.1, hf.2.trans hinit⟩
  | uninit => simp [touchesServerConfig] at hop
  | setServer dv => simp [touchesServerConfig] at hop
  | resolve dv => exact ⟨rfl, hinit⟩
  | reverse dv => exact ⟨rfl, hinit⟩
  | resolveExtended dv => exact ⟨rfl, hinit⟩
  | getCurrentServer => exact ⟨rfl, hinit⟩
  | getSystemsServer => exact ⟨rfl, hinit⟩

/-- Running any sequence of non-`SetServer`, non-`Uninitialize` operations
preserves the stored server spec and the initialized flag. -/
theorem runOps_preserves (ops : List (World × Op)) (s : DNSState) (X : List Nat)
    (hs : s.currentDnsServer = X) (hinit : s.dnsInitialized = true)
    (hops : ∀ p ∈ ops, touchesServerConfig p.2 = false) :
    (runOps ops s).currentDnsServer = X ∧ (runOps ops s).dnsInitialized = true := by
  induction ops generalizing s with
  | nil => exact ⟨hs, hinit⟩
  | cons p rest ih =>
    obtain ⟨env, op⟩ := p
    have hp := hops _ (List.mem_cons_self _ _)
    have hstep := stepOp_preserves env op s hinit hp
    simp only [runOps]
    exact ih (stepOp env op s) (hstep.1.trans hs) hstep.2
      (fun q hq => hops q (List.mem_cons_of_mem _ hq))

/-- C7: after a successful `fDNS_Set_Server X` while initialized,
`fDNS_Get_Current_Server` returns exactly `X`, it keeps returning `X`
across any sequence of public operations that contains no `SetServer` and
no `Uninitialize`, and after `fDNS_Uninitialize` it returns `""`. -/
theorem c7_setServer_roundtrip (env : World) (s : DNSState) (X : List Nat)
    (ops : List (World × Op))
    (hinit : s.dnsInitialized = true)
    (_hok : (fDNS_Set_Server env X s).1 = 0)
    (hops : ∀ p ∈ ops, touchesServerConfig p.2 = false) :
    fDNS_Get_Current_Server (fDNS_Set_Server env X s).2 = X ∧
    fDNS_Get_Current_Server (runOps ops (fDNS_Set_Server env X s).2) = X ∧
    fDNS_Get_Current_Server
      (fDNS_Uninit (runOps ops (fDNS_Set_Server env X s).2)).2 = [] := by
  have h1 : ¬ s.dnsInitialized = false := by simp [hinit]
  have hf := rebuildChannel_fields env { s with currentDnsServer := X }
  have hset : (fDNS_Set_Server env X s).2.currentDnsServer = X ∧
      (fDNS_Set_Server env X s).2.dnsInitialized = true := by
    unfold fDNS_Set_Server
    rw [if_neg h1]
    exact ⟨hf.1, hf.2.trans hinit⟩
  have hrun := runOps_preserves ops (fDNS_Set_Server env X s).2 X hset.1 hset.2 hops
  refine ⟨hset.1, hrun.1, ?_⟩
  unfold fDNS_Uninit fDNS_Get_Current_Server
  simp [hrun.2]

/-- C7 witness: the round trip at a concrete server spec and a concrete
operation sequence (a re-`Initialize`, a `Resolve`, a read). -/
theorem c7_setServer_roundtrip_witness :
    fDNS_Get_Current_Server (fDNS_Set_Server worldN serverX sNative).2 = serverX ∧
    fDNS_Get_Current_Server (runOps opsW (fDNS_Set_Server worldN serverX sNative).2) = serverX ∧
    fDNS_Get_Current_Server
      (fDNS_Uninit (runOps opsW (fDNS_Set_Server worldN serverX sNative).2)).2 = [] :=
  c7_setServer_roundtrip worldN sNative serverX opsW rfl (by decide)
    (by intro p hp; fin_cases hp <;> rfl)

/-- C8 (counterexample): not every access to the shared `server` /
`initialized` fields happens under the global lock — the `g_dnsInitialized`
read at the entry of `fDNS_Resolve` (line 227) is performed before any
`lock_guard` is taken. -/
theorem c8_unlocked_read_counterexample :
    (allPublicAccesses.all fun a => (a.field == GField.channel) || a.locked) = false ∧
    Access.mk GField.initialized AccessMode.read false ∈ resolveAccesses := by
  refine ⟨by decide, by decide⟩

/-- C8 (amended): every access to `g_currentDnsServer` and every write to
`g_dnsInitialized` is performed under `g_dnsMutex`, but the resolving
entry points (`fDNS_Resolve` line 227, `fDNS_Reverse` line 348,
`fDNS_Resolve_Extended` line 474, `fDNS_Plugin_Set_Server` line 734) read
`g_dnsInitialized` without the lock: those reads are the only unlocked
shared-state accesses. -/
theorem c8_lock_discipline :
    (allPublicAccesses.all fun a =>
      match a.field, a.mode with
      | GField.server, _ => a.locked
      | GField.initialized, AccessMode.write => a.locked
      | _, _ => true) = true ∧
    ((allPublicAccesses.filter fun a => !a.locked).all fun a =>
      (a.field == GField.initialized) && (a.mode == AccessMode.read)) = true := by
  refine ⟨by decide, by decide⟩

/-- A value can only be rendered when the entry's wire type matches the
queried kind: every branch of the rendering chain tests both. -/
theorem renderValue_of_ne (lib : Lib) (kind : RecordKind) (rr : RRWire)
    (h : rr.rrType ≠ wireType kind) : renderValue lib kind rr = [] := by
  cases kind <;> simp_all [renderValue, wireType]

/-- C6 (amended): for a query of kind `K`, the parsing callback emits one
`(K, value)` pair for exactly those answer-section entries that parse,
whose wire type equals `K`'s wire type, and whose rendered value is
non-empty; entries of other types, entries failing `ns_parserr`, and
matching entries rendering to the empty string (e.g. a zero-length TXT)
emit nothing, and an unparseable message yields zero records. -/
theorem c6_parse_filter_map (lib : Lib) (kind : RecordKind) (msg : DnsMessage) :
    parseRecords lib kind msg =
      if msg.parseOk then
        (msg.answers.filter fun rr =>
          rr.parseOk && (rr.rrType == wireType kind) && !(renderValue lib kind rr).isEmpty).map
          fun rr => (kind, renderValue lib kind rr)
      else [] := by
  unfold parseRecords
  by_cases h : msg.parseOk = true
  · rw [if_pos h, if_pos h]
    induction msg.answers with
    | nil => rfl
    | cons rr rest ih =>
      simp only [parseEntries, List.filter_cons]
      by_cases hp : rr.parseOk = true
      · by_cases hv : renderValue lib kind rr = []
        · have hb : (rr.parseOk && (rr.rrType == wireType kind) &&
              !(renderValue lib kind rr).isEmpty) = false := by
            simp [hv]
          simp [hp, hv, hb, ih]
        · have ht : rr.rrType = wireType kind := by
            by_contra hne
            exact hv (renderValue_of_ne lib kind rr hne)
          have hb : (rr.parseOk && (rr.rrType == wireType kind) &&
              !(renderValue lib kind rr).isEmpty) = true := by
            simp [hp, ht, hv]
          simp [hp, hv, hb, ht, ih]
      · have hb : (rr.parseOk && (rr.rrType == wireType kind) &&
            !(renderValue lib kind rr).isEmpty) = false := by
          simp [hp]
        simp [hp, hb, ih]
  · rw [if_neg h, if_neg h]

/-- C6 (counterexample): a parseable message with exactly one parseable
answer entry of the queried TXT wire type yields zero emitted pairs, not
one — the zero-length TXT rdata renders to the empty string and the
`!value.empty()` guard (fDNS.cpp line 608) drops it. -/
theorem c6_zero_length_txt_counterexample :
    (txtMsg.answers.filter fun rr =>
      rr.parseOk && (rr.rrType == wireType RecordKind.TXT)).length = 1 ∧
    parseRecords libX RecordKind.TXT txtMsg = [] := by
  refine ⟨by decide, by decide⟩

/-- Soundness of one callback firing: it preserves the done-list length
and appends only records parsed from a successful outcome. -/
theorem fireOne_sound (lib : Lib) (outcomes : List QueryOutcome)
    (st : List Bool × List (RecordKind × List Nat)) (i : Nat)
    (hlen : st.1.length = 8)
    (hrec : ∀ r ∈ st.2, FromOkQuery lib outcomes r) :
    (fireOne lib outcomes st i).1.length = 8 ∧
    ∀ r ∈ (fireOne lib outcomes st i).2, FromOkQuery lib outcomes r := by
  unfold fireOne
  by_cases hd : st.1.getD i true = true
  · rw [if_pos hd]
    exact ⟨hlen, hrec⟩
  · have hi : i < st.1.length := by
      by_contra hni
      rw [List.getD_eq_default _ _ (Nat.le_of_not_lt hni)] at hd
      exact hd rfl
    rw [if_neg hd]
    refine ⟨by simpa using hlen, ?_⟩
    cases ho : outcomes.getD i QueryOutcome.err with
    | err => simpa [ho] using hrec
    | ok msg =>
      simp only [ho]
      intro r hrr
      rcases List.mem_append.mp hrr with hrl | hrr
      · exact hrec r hrl
      · exact ⟨i, msg, by omega, ho, hrr⟩

/-- Soundness of processing all callbacks fired in one loop iteration. -/
theorem foldl_fireOne_sound (lib : Lib) (outcomes : List QueryOutcome)
    (fires : List Nat) (st : List Bool × List (RecordKind × List Nat))
    (hlen : st.1.length = 8)
    (hrec : ∀ r ∈ st.2, FromOkQuery lib outcomes r) :
    (fires.foldl (fireOne lib outcomes) st).1.length = 8 ∧
    ∀ r ∈ (fires.foldl (fireOne lib outcomes) st).2, FromOkQuery lib outcomes r := by
  induction fires generalizing st with
  | nil => exact ⟨hlen, hrec⟩
  | cons i rest ih =>
    have h1 := fireOne_sound lib outcomes st i hlen hrec
    simpa [List.foldl] using ih (fireOne lib outcomes st i) h1.1 h1.2

/-- Soundness of the eight-query poll loop: every record it accumulates
originates from a successful query outcome. -/
theorem runExtLoop_sound (lib : Lib) (timeoutMs : Int) (outcomes : List QueryOutcome)
    (steps : List ExtStep) (done : List Bool) (recs : List (RecordKind × List Nat))
    (total : Int) (hlen : done.length = 8)
    (hrec : ∀ r ∈ recs, FromOkQuery lib outcomes r) :
    ∀ r ∈ (runExtLoop lib timeoutMs outcomes steps done recs total).2.1,
      FromOkQuery lib outcomes r := by
  induction steps generalizing done recs total with
  | nil => simpa [runExtLoop] using hrec
  | cons step rest ih =>
    unfold runExtLoop
    split_ifs with h1 h2 h3
    · simpa using hrec
    · simpa using hrec
    · have hfold := foldl_fireOne_sound lib outcomes step.fires (done, recs) hlen hrec
      exact ih _ _ _ hfold.1 hfold.2
    · simpa using hrec

/-- C5: in the custom-server path of `fDNS_Resolve_Extended`, every record
in the returned list was appended by a successful callback — a query that
errors, or is still pending when the budget is exhausted, contributes zero
records and no `"?"` sentinel. -/
theorem c5_extended_only_successful (env : World) (s : DNSState) (dv : DataVect)
    (recs : List (RecordKind × List Nat)) (r : RecordKind × List Nat)
    (hserver : s.currentDnsServer ≠ [])
    (hres : resolveExtendedRecords env s dv = (0, some recs))
    (hr : r ∈ recs) :
    FromOkQuery env.lib env.extOutcomes r := by
  by_cases hi : s.dnsInitialized = false
  · simp [resolveExtendedRecords, hi] at hres
  · by_cases hsz : dv.size < 1
    · simp [resolveExtendedRecords, hi, hsz] at hres
    · by_cases hh : getString dv.text0 = []
      · simp [resolveExtendedRecords, hi, hsz, hh] at hres
      · by_cases hio : env.initOptionsOk = false
        · simp [resolveExtendedRecords, hi, hsz, hh, hserver, hio] at hres
        · by_cases hss : env.setServersOk s.currentDnsServer = false
          · simp [resolveExtendedRecords, hi, hsz, hh, hserver, hio, hss] at hres
          · have hrecs : (runExtLoop env.lib (normalizeTimeout dv) env.extOutcomes
                env.extSteps (List.replicate 8 false) [] 0).2.1 = recs := by
              simpa [resolveExtendedRecords, hi, hsz, hh, hserver, hio, hss] using hres
            rw [← hrecs] at hr
            exact runExtLoop_sound env.lib (normalizeTimeout dv) env.extOutcomes
              env.extSteps (List.replicate 8 false) [] 0 (by simp) (by simp) r hr

/-- C5 witness: with query 0 answering one A record and the rest erroring
or pending, the single returned record traces to the successful query. -/
theorem c5_extended_only_successful_witness :
    FromOkQuery worldExt.lib worldExt.extOutcomes (RecordKind.A, bytes "1.2.3.4") :=
  c5_extended_only_successful worldExt sCustom dvHost
    [(RecordKind.A, bytes "1.2.3.4")] (RecordKind.A, bytes "1.2.3.4")
    (by decide) (by decide) (by decide)

/-- `getString` cannot see past the 511-byte buffer limit. -/
theorem getString_take_511 (t : List Nat) : getString (t.take 511) = getString t := by
  unfold getString
  rw [List.take_take]
  norm_num

/-- C10: every public string argument passes through the fixed 512-byte
conversion buffer: the converted string never exceeds 511 bytes, and each
operation behaves exactly as if it had been handed the 511-byte prefix of
its text argument — longer inputs are silently truncated, never
rejected. -/
theorem c10_truncation (env : World) (s : DNSState) (dv : DataVect) :
    (getString dv.text0).length ≤ 511 ∧
    fDNS_Resolve env s dv = fDNS_Resolve env s { dv with text0 := dv.text0.take 511 } ∧
    fDNS_Reverse env s dv = fDNS_Reverse env s { dv with text0 := dv.text0.take 511 } ∧
    fDNS_Resolve_Extended env s dv =
      fDNS_Resolve_Extended env s { dv with text0 := dv.text0.take 511 } ∧
    fDNS_Plugin_Set_Server env dv s =
      fDNS_Plugin_Set_Server env { dv with text0 := dv.text0.take 511 } s := by
  have hg : getString (dv.text0.take 511) = getString dv.text0 := getString_take_511 dv.text0
  refine ⟨?_, ?_, ?_, ?_, ?_⟩
  · exact le_trans ((List.takeWhile_sublist _).length_le) (dv.text0.length_take_le 511)
  · simp [fDNS_Resolve, normalizeTimeout, hg]
  · simp [fDNS_Reverse, normalizeTimeout, hg]
  · simp [fDNS_Resolve_Extended, resolveExtendedRecords, normalizeTimeout, hg]
  · simp [fDNS_Plugin_Set_Server, hg]

end FDNS
